import Mathlib

set_option maxRecDepth 16000

/-!
Verification of the POH exercise recommendation engine
(src/src/lib/recommendation-engine.js).

The JavaScript source is shallowly embedded: JS numbers are modelled as
rationals (Rat), calendar dates (ISO day strings, compared through
new Date) as integers counting days, optional / possibly-undefined JS
values as Option, and JS's implicit dependency on the wall clock
(new Date()) as an explicit parameter now : Int, as the repository's own
design notes direct.  JS strict-equality filtering (isActive !== false),
truthiness (if (x) with 0 and null falsy), and || defaulting are embedded
by dedicated helpers.  Division by zero in the JS source produces
NaN/Infinity whose comparisons are all false; the embedding notes each
spot where that matters and mirrors the observable branch outcome.
-/

namespace POH

/-- A logged workout set (WorkoutEntry in the source).  `date` is the
calendar day as an epoch-day index: ISO date strings of equal format
compare (both as strings and through new Date) exactly like these
integers.  `isActive` may be absent (undefined) which the engine treats
as active. -/
structure WorkoutEntry where
  id : String
  name : String
  date : Int
  weight : Rat
  reps : Rat
  rir : Option Rat
  isActive : Option Bool
deriving DecidableEq

/-- JS `entry.isActive !== false`: everything except an explicit false is
active. -/
def isActiveEntry (e : WorkoutEntry) : Bool :=
  decide (e.isActive ≠ some false)

/-- JS truthiness of an optional number: null/undefined and 0 are falsy. -/
def jsTruthy (o : Option Rat) : Bool :=
  match o with
  | none => false
  | some q => decide (q ≠ 0)

/-- JS `a || d` for an optional number a: returns d when a is
null/undefined or 0, else a. -/
def jsOr (o : Option Rat) (d : Rat) : Rat :=
  match o with
  | none => d
  | some v => if v = 0 then d else v

/-- JS Math.round: round half toward positive infinity, which is exactly
Mathlib's round on Rat (round x = floor (x + 1/2)); written with the
executable Rat.floor so concrete values evaluate by decide. -/
def jsRound (q : Rat) : Int := (q + 1/2).floor

/-- JS Math.min on two numbers. -/
def jsMin (a b : Rat) : Rat := if a ≤ b then a else b

/-- JS Math.max on two numbers. -/
def jsMax (a b : Rat) : Rat := if a ≤ b then b else a


/-- PHASE_CONFIG entry (training phase configuration). -/
structure PhaseConfig where
  intensity_lo : Rat
  intensity_hi : Rat
  rep_range : String
  rep_min : Rat
  rep_max : Rat
  base_sets : Rat
  rir_target : Rat
  rest_seconds : String
deriving DecidableEq

def hypertrophyConfig : PhaseConfig :=
  ⟨65/100, 75/100, "8-12", 8, 12, 4, 2, "90-120"⟩

def strengthConfig : PhaseConfig :=
  ⟨80/100, 88/100, "4-6", 4, 6, 5, 1, "180-300"⟩

def peakingConfig : PhaseConfig :=
  ⟨90/100, 97/100, "1-3", 1, 3, 4, 0, "300-420"⟩

def explosiveConfig : PhaseConfig :=
  ⟨50/100, 70/100, "2-5", 2, 5, 5, 3, "120-180"⟩

/-- PHASE_CONFIG as a lookup (a JS object keyed by phase name). -/
def PHASE_CONFIG (phase : String) : Option PhaseConfig :=
  if phase = "hypertrophy" then some hypertrophyConfig
  else if phase = "strength" then some strengthConfig
  else if phase = "peaking" then some peakingConfig
  else if phase = "explosive" then some explosiveConfig
  else none

/-- JS `PHASE_CONFIG[phase] || PHASE_CONFIG.hypertrophy`. -/
def getPhaseConfig (phase : String) : PhaseConfig :=
  (PHASE_CONFIG phase).getD hypertrophyConfig

/-- EXERCISE_CONFIG entry. -/
structure ExerciseConfig where
  load_increment : Rat
  max_weekly_sets : Rat
  e1rm_modifier : Option Rat
  rir_adjustment : Option Rat
deriving DecidableEq

/-- EXERCISE_CONFIG as a lookup (a JS object keyed by exercise name). -/
def EXERCISE_CONFIG (name : String) : Option ExerciseConfig :=
  if name = "Deadlift" then some ⟨5, 10, none, none⟩
  else if name = "Squat" then some ⟨5, 16, none, none⟩
  else if name = "Front Squat" then some ⟨5, 12, some (82/100), none⟩
  else if name = "Bench Press" then some ⟨5/2, 20, none, none⟩
  else if name = "Overhead Press" then some ⟨5/4, 16, none, none⟩
  else if name = "Lunge" then some ⟨5/2, 12, none, some 1⟩
  else if name = "Barbell Row" then some ⟨5/2, 16, none, none⟩
  else none

/-- EXERCISE_CONFIG._default. -/
def defaultExerciseConfig : ExerciseConfig := ⟨5/2, 16, none, none⟩

/-- JS `EXERCISE_CONFIG[exerciseName] || EXERCISE_CONFIG._default`. -/
def getExerciseConfig (name : String) : ExerciseConfig :=
  (EXERCISE_CONFIG name).getD defaultExerciseConfig

/-- calculateE1RM: Brzycki estimated one-rep max from one set.
Returns 0 for non-positive weight or reps; otherwise effective reps are
reps + (rir, 2 when absent) capped at 12, and the result
weight * (36 / (37 - effectiveReps)) is rounded to one decimal. -/
def calculateE1RM (weight reps : Rat) (rir : Option Rat) : Rat :=
  if weight ≤ 0 ∨ reps ≤ 0 then 0
  else
    let assumedRIR := rir.getD 2
    let effectiveReps := jsMin (reps + assumedRIR) 12
    let e1rm := weight * (36 / (37 - effectiveReps))
    (jsRound (e1rm * 10) : Rat) / 10

/-- getAgeMultiplier. -/
def getAgeMultiplier (age : Rat) : Rat :=
  if age ≤ 30 then 1
  else if age ≤ 40 then 95/100
  else if age ≤ 50 then 85/100
  else if age ≤ 60 then 75/100
  else 65/100

/-- getAdjustedSets: Math.max(2, Math.round(baseSets * multiplier)). -/
def getAdjustedSets (baseSets age : Rat) : Rat :=
  jsMax 2 (jsRound (baseSets * getAgeMultiplier age) : Rat)

/-- Insert into an ascending-by-date list, before the first element whose
date is not smaller: together with sortAscByDate this is the unique
stable ascending sort, which is what the JS stable Array.prototype.sort
with comparator (a, b) => new Date(a.date) - new Date(b.date) produces. -/
def insertAscByDate (x : WorkoutEntry) : List WorkoutEntry → List WorkoutEntry
  | [] => [x]
  | y :: ys => if y.date < x.date then y :: insertAscByDate x ys else x :: y :: ys

/-- Stable ascending-by-date sort. -/
def sortAscByDate : List WorkoutEntry → List WorkoutEntry
  | [] => []
  | x :: xs => insertAscByDate x (sortAscByDate xs)

/-- Insert into a descending-by-date list, before the first element whose
date is not larger; with sortDescByDate this is the stable descending
sort used for comparator (a, b) => new Date(b.date) - new Date(a.date). -/
def insertDescByDate (x : WorkoutEntry) : List WorkoutEntry → List WorkoutEntry
  | [] => [x]
  | y :: ys => if x.date < y.date then y :: insertDescByDate x ys else x :: y :: ys

/-- Stable descending-by-date sort. -/
def sortDescByDate : List WorkoutEntry → List WorkoutEntry
  | [] => []
  | x :: xs => insertDescByDate x (sortDescByDate xs)

/-- Insert an integer into an ascending list (for the default lexicographic
sort of the deduplicated ISO date strings, which on equal-format ISO dates
coincides with numeric order). -/
def insertIntAsc (x : Int) : List Int → List Int
  | [] => [x]
  | y :: ys => if y < x then y :: insertIntAsc x ys else x :: y :: ys

def sortIntAsc : List Int → List Int
  | [] => []
  | x :: xs => insertIntAsc x (sortIntAsc xs)

/-- One step of JS Set insertion-order semantics: append if not present. -/
def insertUnique (acc : List Int) (d : Int) : List Int :=
  if acc.contains d then acc else acc ++ [d]

/-- The distinct values of a list in first-occurrence order, as
new Set(...) iterates them. -/
def uniqueDates (l : List Int) : List Int := l.foldl insertUnique []

/-- JS Math.max(...list) for the nonempty lists the source applies it to
(every call site guards emptiness; the [] case is never reached). -/
def maxList : List Rat → Rat
  | [] => 0
  | x :: xs => xs.foldl jsMax x

/-- JS Math.min(...list), same call-site convention. -/
def minList : List Rat → Rat
  | [] => 0
  | x :: xs => xs.foldl jsMin x

/-- getHighestE1RMInRange: best estimate among active entries whose date
lies in the inclusive window [now - daysAgoEnd, now - daysAgoStart],
or 0 when no entry matches.  The JS source materialises the window as
Date objects via setDate; at the calendar-day granularity of entry dates
that is the integer window used here. -/
def getHighestE1RMInRange (history : List WorkoutEntry) (now daysAgoStart daysAgoEnd : Int) :
    Rat :=
  let entriesInRange := history.filter fun e =>
    isActiveEntry e && decide (e.date ≤ now - daysAgoStart) && decide (e.date ≥ now - daysAgoEnd)
  if entriesInRange.isEmpty then 0
  else maxList (entriesInRange.map fun e => calculateE1RM e.weight e.reps e.rir)

/-- determineTrainingStatus (the recentHistory-aware version the engine
calls): long-term trend against the 28-42 day window when available,
else a short-term comparison over the last up-to-3 chronological
sessions, else insufficient data. -/
def determineTrainingStatus (currentE1RM previousE1RM : Rat) (sessionCount : Nat)
    (recentHistory : List WorkoutEntry) : String :=
  if sessionCount < 2 then "insufficient_data"
  else if previousE1RM > 0 then
    let trend := ((currentE1RM - previousE1RM) / previousE1RM) * 100
    if trend ≥ 5/2 then "progressing"
    else if trend ≤ -(5/2) then "regressing"
    else "plateau"
  else if 2 ≤ recentHistory.length then
    let sortedRecent := sortAscByDate (recentHistory.filter isActiveEntry)
    if 2 ≤ sortedRecent.length then
      let e1rms := (sortedRecent.drop (sortedRecent.length - 3)).map fun e =>
        calculateE1RM e.weight e.reps e.rir
      let firstE1RM := e1rms.headD 0
      let lastE1RM := e1rms.getLastD 0
      if firstE1RM * (101/100) < lastE1RM then "progressing"
      else if lastE1RM < firstE1RM * (98/100) then "regressing"
      else "plateau"
    else "insufficient_data"
  else "insufficient_data"

/-- getMostRecentEntry: JS reduce keeping the entry with the strictly
larger date, so on ties the earlier-listed entry wins. -/
def getMostRecentEntry (history : List WorkoutEntry) : Option WorkoutEntry :=
  match history.filter isActiveEntry with
  | [] => none
  | x :: xs => some (xs.foldl (fun latest e => if latest.date < e.date then e else latest) x)

/-- countSessions: the number of distinct dates among active entries. -/
def countSessions (history : List WorkoutEntry) : Nat :=
  (uniqueDates ((history.filter isActiveEntry).map WorkoutEntry.date)).length

/-- getDaysSinceLastSession: whole days between now and the most recent
active entry, null (none) on empty history. -/
def getDaysSinceLastSession (history : List WorkoutEntry) (now : Int) : Option Int :=
  match getMostRecentEntry history with
  | none => none
  | some lastEntry => some (now - lastEntry.date)

/-- hitTopOfRepRange. -/
def hitTopOfRepRange (history : List WorkoutEntry) (repMax : Rat) : Bool :=
  match getMostRecentEntry history with
  | none => false
  | some lastEntry => decide (lastEntry.reps ≥ repMax)

/-- getLastSessionWeight. -/
def getLastSessionWeight (history : List WorkoutEntry) : Option Rat :=
  (getMostRecentEntry history).map WorkoutEntry.weight

/-- detectPlateau: best per-session estimates of the last 3 distinct
session dates spread by less than 2 percent of the worst.  When the worst
estimate is 0 the JS division yields NaN or Infinity, whose comparison
with 0.02 is false either way, hence the explicit minE1RM = 0 case. -/
def detectPlateau (history : List WorkoutEntry) : Bool :=
  let activeEntries := history.filter isActiveEntry
  if activeEntries.length < 3 then false
  else
    let sortedEntries := sortDescByDate activeEntries
    let uniqueD := (uniqueDates (sortedEntries.map WorkoutEntry.date)).take 3
    if uniqueD.length < 3 then false
    else
      let sessionE1RMs := uniqueD.map fun d =>
        maxList ((sortedEntries.filter fun e => decide (e.date = d)).map fun e =>
          calculateE1RM e.weight e.reps e.rir)
      let maxE1RM := maxList sessionE1RMs
      let minE1RM := minList sessionE1RMs
      if minE1RM = 0 then false
      else decide ((maxE1RM - minE1RM) / minE1RM < 2/100)

/-- getPlateauStrategy: deterministic round-robin over the four
strategies, indexed by plateauCount mod 4. -/
def getPlateauStrategy (_exerciseName : String) (plateauCount : Nat) : String :=
  let strategies := ["micro_load", "add_set", "extend_rep_ceiling", "reset"]
  strategies.getD (plateauCount % 4) ""

/-- roundToIncrement: Math.round(weight / 1.25) * 1.25. -/
def roundToIncrement (weight : Rat) : Rat :=
  (jsRound (weight / (5/4)) : Rat) * (5/4)

/-- Decimal digits of a proper fraction rem/den, as JS number printing
produces them for the terminating decimals the engine manipulates
(fuel bounds the expansion; every value interpolated by the source
terminates well before it runs out). -/
def fracDigits : Nat → Nat → Nat → String
  | 0, _, _ => ""
  | _ + 1, 0, _ => ""
  | fuel + 1, rem, den =>
    let rem10 := rem * 10
    toString (rem10 / den) ++ fracDigits fuel (rem10 % den) den

/-- JS template-literal printing of a number: optional sign, integer
part, and a fractional part exactly when nonzero. -/
def ratToString (q : Rat) : String :=
  let sign := if q < 0 then "-" else ""
  let n := q.num.natAbs
  let d := q.den
  if n % d = 0 then sign ++ toString (n / d)
  else sign ++ toString (n / d) ++ "." ++ fracDigits 20 (n % d) d

/-- JS Number.prototype.toFixed(1): sign split off first, then the
numerator nearest to |x|*10 with ties taking the larger value. -/
def toFixed1 (x : Rat) : String :=
  let sign := if x < 0 then "-" else ""
  let n := (jsRound (|x| * 10)).toNat
  sign ++ toString (n / 10) ++ "." ++ toString (n % 10)

/-- Printing of a possibly-null number inside a template literal
(JS renders null as the text "null"). -/
def optRatToString (o : Option Rat) : String :=
  match o with
  | none => "null"
  | some q => ratToString q

/-- prescription.sets is heterogeneous in the source: a number on the
normal path and the string range "3-5" in benchmark mode. -/
inductive SetsVal
  | num (n : Rat)
  | str (s : String)
deriving DecidableEq

/-- prescription.reps: a string range in every engine branch, with the
number alternative kept because the legacy adapter accepts it. -/
inductive RepsVal
  | num (n : Rat)
  | str (s : String)
deriving DecidableEq

structure BenchmarkInstructions where
  title : String
  subtitle : String
  instructions : List String
deriving DecidableEq

structure Prescription where
  sets : SetsVal
  reps : RepsVal
  target_reps : Option Rat
  weight_kg : Option Rat
  rest_seconds : String
  rir_target : Rat
  benchmark_instructions : Option BenchmarkInstructions
deriving DecidableEq

structure ReasoningBreakdown where
  last_session : String
  trend : String
  next_step : String
  calculation : String
deriving DecidableEq

/-- One analysed benchmark set (weight, reps, rir, e1rm). -/
structure BenchSet where
  weight : Rat
  reps : Rat
  rir : Option Rat
  e1rm : Rat
deriving DecidableEq

structure BenchmarkAnalysis where
  benchmarkCompleted : Bool
  highestE1RM : Rat
  bestSet : Option BenchSet
  totalSets : Nat
  allSets : List BenchSet
deriving DecidableEq

structure BenchmarkBaseline where
  e1rm : Rat
  bestSet : Option BenchSet
  sessionDate : Int
deriving DecidableEq

/-- The engine result (ExerciseRecommendation).  Fields a JS return
object omits are modelled as none. -/
structure Recommendation where
  exercise : String
  benchmark_mode : Option Bool
  benchmark_baseline : Option BenchmarkBaseline
  prescription : Prescription
  intensity_percent : Option Rat
  calculated_e1rm_kg : Rat
  training_status : String
  progression_rationale : String
  flags : Option (List String)
  reasoning_breakdown : ReasoningBreakdown
deriving DecidableEq

/-- The request record destructured by generateRecommendation. -/
structure Request where
  exercise : String
  history : List WorkoutEntry
  userAge : Rat
  phase : String
deriving DecidableEq

/-- analyzeBenchmarkSession: per-set estimates of the first session,
best set by raw estimate (JS reduce with strict greater-than, so the
earliest best set wins ties), then the exercise modifier
(e1rm_modifier || 1.0) applied to the winner. -/
def analyzeBenchmarkSession (sessionHistory : List WorkoutEntry) (exerciseName : String) :
    BenchmarkAnalysis :=
  match sessionHistory with
  | [] =>
    { benchmarkCompleted := false, highestE1RM := 0, bestSet := none,
      totalSets := 0, allSets := [] }
  | first :: rest =>
    let exerciseConfig := getExerciseConfig exerciseName
    let toSet : WorkoutEntry → BenchSet := fun e =>
      ⟨e.weight, e.reps, e.rir, calculateE1RM e.weight e.reps e.rir⟩
    let setsWithE1RM := (first :: rest).map toSet
    let bestSet := (rest.map toSet).foldl
      (fun best current => if best.e1rm < current.e1rm then current else best) (toSet first)
    let adjustedE1RM := bestSet.e1rm * jsOr exerciseConfig.e1rm_modifier 1
    { benchmarkCompleted := true, highestE1RM := adjustedE1RM,
      bestSet := some ⟨bestSet.weight, bestSet.reps, bestSet.rir, adjustedE1RM⟩,
      totalSets := (first :: rest).length, allSets := setsWithE1RM }

/-- buildReasoningBreakdown: the four-field textual explanation, built
from the same inputs as the prescription. -/
def buildReasoningBreakdown (lastEntry : Option WorkoutEntry) (trainingStatus : String)
    (prescribedWeight : Option Rat) (targetReps : Option Rat)
    (phaseConfig : PhaseConfig) (exerciseConfig : ExerciseConfig)
    (currentE1RM previousE1RM : Rat) : ReasoningBreakdown :=
  match lastEntry with
  | none =>
    { last_session := "No previous sessions recorded"
      trend := "Starting fresh"
      next_step := "Establish a baseline by performing the recommended sets and reps"
      calculation := "Starting with conservative estimate based on typical beginner loads" }
  | some le =>
    let lastSessionDesc := ratToString le.weight ++ "kg × " ++ ratToString le.reps ++
      " reps" ++ (match le.rir with
        | some r => " (RIR " ++ ratToString r ++ ")"
        | none => "")
    let trend :=
      if previousE1RM > 0 ∧ currentE1RM > 0 then
        let trendPercent := ((currentE1RM - previousE1RM) / previousE1RM) * 100
        (if trendPercent ≥ 0 then "+" else "") ++ toFixed1 trendPercent ++ "% vs. 4 weeks ago"
      else if trainingStatus = "progressing" then "Improving session-to-session"
      else if trainingStatus = "plateau" then "Stable performance"
      else if trainingStatus = "regressing" then "Declining performance"
      else "Building training history"
    let nextStep :=
      if trainingStatus = "progressing" then
        if le.reps ≥ phaseConfig.rep_max then
          "You hit " ++ ratToString phaseConfig.rep_max ++
          " reps. Time to increase weight by " ++
          ratToString exerciseConfig.load_increment ++ "kg."
        else if jsTruthy targetReps then
          "Keep pushing for more reps. Target " ++ ratToString (targetReps.getD 0) ++
          " reps this session."
        else
          "Keep pushing for more reps. Target " ++
          ratToString (jsMin (le.reps + 1) phaseConfig.rep_max) ++ " reps this session."
      else if trainingStatus = "plateau" then
        if jsTruthy targetReps then
          "Break through the plateau by aiming for " ++ ratToString (targetReps.getD 0) ++
          " reps."
        else "Break through the plateau by focusing on rep quality and progressive volume."
      else if trainingStatus = "regressing" then
        "Take a deload week to recover. Reduce intensity and volume."
      else
        if jsTruthy targetReps then
          "Build momentum by targeting " ++ ratToString (targetReps.getD 0) ++
          " reps consistently."
        else "Build momentum with consistent training."
    let calculation :=
      if jsTruthy prescribedWeight then
        let pw := prescribedWeight.getD 0
        if le.weight < pw then
          ratToString pw ++ "kg = " ++ ratToString le.weight ++ "kg + " ++
          ratToString exerciseConfig.load_increment ++ "kg increment"
        else if jsTruthy targetReps then
          ratToString pw ++ "kg × " ++ ratToString (targetReps.getD 0) ++
          " reps (maintain weight, aim for " ++ ratToString (targetReps.getD 0) ++ " reps)"
        else ratToString pw ++ "kg (maintain weight, add reps)"
      else "Weight to be determined based on your starting point"
    { last_session := lastSessionDesc, trend := trend,
      next_step := nextStep, calculation := calculation }

/-- The active history the engine works on: entries for the requested
exercise that are not soft-deleted, newest first. -/
def activeHistoryFor (exercise : String) (history : List WorkoutEntry) : List WorkoutEntry :=
  sortDescByDate (history.filter fun e => decide (e.name = exercise) && isActiveEntry e)

/-- The working estimate: best estimate of the last 14 days, falling back
to the most recent entry when that window is non-positive, then scaled by
the exercise modifier when one is configured.  This block appears verbatim
twice in the source (break path and normal path). -/
def workingE1RMOf (activeHistory : List WorkoutEntry) (now : Int)
    (exerciseConfig : ExerciseConfig) : Rat :=
  let currentE1RM := getHighestE1RMInRange activeHistory now 0 14
  let base :=
    if currentE1RM ≤ 0 then
      match getMostRecentEntry activeHistory with
      | some lastEntry => calculateE1RM lastEntry.weight lastEntry.reps lastEntry.rir
      | none => 0
    else currentE1RM
  if jsTruthy exerciseConfig.e1rm_modifier then
    base * exerciseConfig.e1rm_modifier.getD 0
  else base

/-- The zero-history return object (benchmark mode). -/
def benchmarkModeResult (exercise : String) : Recommendation :=
  { exercise := exercise, benchmark_mode := some true, benchmark_baseline := none,
    prescription :=
      { sets := SetsVal.str ("3-5"), reps := RepsVal.str ("5-12"),
        target_reps := none, weight_kg := none,
        rest_seconds := "90-120", rir_target := 3,
        benchmark_instructions := some
          { title := "Benchmark Session", subtitle := "Find Your Starting Point",
            instructions :=
              ["Start with a comfortable weight you can lift 8-10 times",
               "Perform 3-5 sets, adjusting weight each set",
               "Try to reach near-failure (1-2 reps left in tank)",
               "Your best set will become your baseline"] } },
    intensity_percent := none,
    calculated_e1rm_kg := 0,
    training_status := "benchmark_mode",
    progression_rationale := "This is your benchmark session! Explore different weights to establish your baseline. Your strongest set will be used as your starting point.",
    flags := some ["benchmark_mode"],
    reasoning_breakdown :=
      { last_session := "No previous data - benchmark mode activated",
        trend := "Establishing baseline",
        next_step := "Complete 3-5 sets at varying weights to find your working load",
        calculation := "Your highest e1RM from all sets will be used as your baseline" } }

/-- The returning-from-break return object (> 14 days since last
session); d is the computed day count. -/
def breakResult (exercise : String) (activeHistory : List WorkoutEntry) (now d : Int)
    (phaseConfig : PhaseConfig) (exerciseConfig : ExerciseConfig) (userAge : Rat) :
    Recommendation :=
  let currentE1RM := getHighestE1RMInRange activeHistory now 0 14
  let previousE1RM := getHighestE1RMInRange activeHistory now 28 42
  let workingE1RM := workingE1RMOf activeHistory now exerciseConfig
  let reductionPercent : Rat := if 28 < d then 15/100 else 10/100
  let reducedE1RM := workingE1RM * (1 - reductionPercent)
  let targetIntensity := (phaseConfig.intensity_lo + phaseConfig.intensity_hi) / 2
  let adjustedWeight := roundToIncrement (reducedE1RM * targetIntensity)
  let adjustedSets := getAdjustedSets phaseConfig.base_sets userAge
  let lastEntry := getMostRecentEntry activeHistory
  { exercise := exercise, benchmark_mode := none, benchmark_baseline := none,
    prescription :=
      { sets := SetsVal.num adjustedSets, reps := RepsVal.str phaseConfig.rep_range,
        target_reps := none, weight_kg := some adjustedWeight,
        rest_seconds := phaseConfig.rest_seconds,
        rir_target := phaseConfig.rir_target + 1,
        benchmark_instructions := none },
    intensity_percent := some (jsRound (targetIntensity * 100 * (1 - reductionPercent)) : Rat),
    calculated_e1rm_kg := (jsRound (workingE1RM * 10) : Rat) / 10,
    training_status := "insufficient_data",
    progression_rationale := toString d ++ " days since last session. Reducing load by " ++
      toString (jsRound (reductionPercent * 100)) ++ "% for safe return.",
    flags := some ["returning_from_break"],
    reasoning_breakdown := buildReasoningBreakdown lastEntry ("insufficient_data")
      (some adjustedWeight) none phaseConfig exerciseConfig currentE1RM previousE1RM }

/-- The single-session (post-benchmark) return object, or the degraded
benchmark-analysis-failed object when the first-session entry list is
empty — which, with one active session present, it never is. -/
def postBenchmarkResult (exercise : String) (activeHistory : List WorkoutEntry)
    (phaseConfig : PhaseConfig) (exerciseConfig : ExerciseConfig) (userAge : Rat)
    (phase : String) : Recommendation :=
  let allDates := sortIntAsc (uniqueDates (activeHistory.map WorkoutEntry.date))
  let benchmarkDate := allDates.headD 0
  let benchmarkHistory := activeHistory.filter fun e => decide (e.date = benchmarkDate)
  let benchmarkAnalysis := analyzeBenchmarkSession benchmarkHistory exercise
  if benchmarkAnalysis.benchmarkCompleted = false then
    { exercise := exercise, benchmark_mode := none, benchmark_baseline := none,
      prescription :=
        { sets := SetsVal.num 3, reps := RepsVal.str ("8-10"),
          target_reps := none, weight_kg := none,
          rest_seconds := "120", rir_target := 3, benchmark_instructions := none },
      intensity_percent := some 60,
      calculated_e1rm_kg := 0,
      training_status := "insufficient_data",
      progression_rationale := "Unable to analyze benchmark session. Please ensure you logged at least one set with weight and reps.",
      flags := some ["benchmark_analysis_failed"],
      reasoning_breakdown := buildReasoningBreakdown none ("insufficient_data") none none
        phaseConfig exerciseConfig 0 0 }
  else
    let baselineE1RM := benchmarkAnalysis.highestE1RM
    let targetIntensity := (phaseConfig.intensity_lo + phaseConfig.intensity_hi) / 2
    let targetWeight := baselineE1RM * targetIntensity
    let prescribedWeight := roundToIncrement targetWeight
    let targetReps : Rat := (((phaseConfig.rep_min + phaseConfig.rep_max) / 2).floor : Int)
    let adjustedSets := getAdjustedSets phaseConfig.base_sets userAge
    -- bestSet is non-null whenever the analysis completed; the JS source
    -- dereferences it directly, so the placeholder is never consulted.
    let bestSet := benchmarkAnalysis.bestSet.getD ⟨0, 0, none, 0⟩
    { exercise := exercise, benchmark_mode := some false,
      benchmark_baseline := some
        ⟨baselineE1RM, benchmarkAnalysis.bestSet, benchmarkDate⟩,
      prescription :=
        { sets := SetsVal.num adjustedSets,
          reps := RepsVal.str (ratToString phaseConfig.rep_min ++ "-" ++
            ratToString phaseConfig.rep_max),
          target_reps := some targetReps, weight_kg := some prescribedWeight,
          rest_seconds := phaseConfig.rest_seconds, rir_target := phaseConfig.rir_target,
          benchmark_instructions := none },
      intensity_percent := some (jsRound (targetIntensity * 100) : Rat),
      calculated_e1rm_kg := baselineE1RM,
      training_status := "progressive",
      progression_rationale := "Benchmark complete! Your baseline: " ++
        toString (jsRound baselineE1RM) ++ "kg e1RM. Starting " ++ phase ++
        " training at " ++ toString (jsRound (targetIntensity * 100)) ++ "% intensity.",
      flags := some ["post_benchmark_first_prescription"],
      reasoning_breakdown :=
        { last_session := "Benchmark: " ++ ratToString bestSet.weight ++ "kg × " ++
            ratToString bestSet.reps ++ " reps",
          trend := "Baseline established",
          next_step := "Progressive training begins at " ++ ratToString prescribedWeight ++ "kg",
          calculation := toString (jsRound (targetIntensity * 100)) ++ "% of " ++
            toString (jsRound baselineE1RM) ++ "kg e1RM = " ++
            ratToString prescribedWeight ++ "kg" } }

/-- The return object shared by every non-regressing normal-path branch
(the source builds it once at the end of generateRecommendation). -/
def finalResult (exercise : String) (phaseConfig : PhaseConfig)
    (exerciseConfig : ExerciseConfig) (adjustedSets rirTarget workingE1RM targetIntensity : Rat)
    (trainingStatus : String) (lastEntry : Option WorkoutEntry)
    (currentE1RM previousE1RM : Rat) (prescribedWeight : Rat) (targetReps : Option Rat)
    (rationale : String) (flags : List String) : Recommendation :=
  { exercise := exercise, benchmark_mode := none, benchmark_baseline := none,
    prescription :=
      { sets := SetsVal.num adjustedSets, reps := RepsVal.str phaseConfig.rep_range,
        target_reps := targetReps, weight_kg := some prescribedWeight,
        rest_seconds := phaseConfig.rest_seconds, rir_target := rirTarget,
        benchmark_instructions := none },
    intensity_percent := some (
      let ratioPercent := jsRound (prescribedWeight / workingE1RM * 100)
      -- JS `|| fallback`: a 0 ratio (or the 0/0 NaN of a zero estimate and
      -- zero weight) falls back to the phase target intensity.  (Zero
      -- estimate with positive weight gives Infinity in JS; the Rat
      -- division-by-zero convention lands that corner in the fallback too —
      -- no claim reads this field on that corner.)
      if ratioPercent = 0 then (jsRound (targetIntensity * 100) : Rat)
      else (ratioPercent : Rat)),
    calculated_e1rm_kg := (jsRound (workingE1RM * 10) : Rat) / 10,
    training_status := trainingStatus,
    progression_rationale := rationale,
    flags := if flags.length > 0 then some flags else none,
    reasoning_breakdown := buildReasoningBreakdown lastEntry trainingStatus
      (some prescribedWeight) targetReps phaseConfig exerciseConfig
      currentE1RM previousE1RM }

/-- The distinct return object of the regressing branch (recovery week). -/
def deloadResult (exercise : String) (phaseConfig : PhaseConfig)
    (exerciseConfig : ExerciseConfig) (deloadSets rirTarget workingE1RM targetIntensity : Rat)
    (trainingStatus : String) (lastEntry : Option WorkoutEntry)
    (currentE1RM previousE1RM : Rat) (prescribedWeight : Rat)
    (flags : List String) : Recommendation :=
  { exercise := exercise, benchmark_mode := none, benchmark_baseline := none,
    prescription :=
      { sets := SetsVal.num deloadSets, reps := RepsVal.str phaseConfig.rep_range,
        target_reps := none, weight_kg := some prescribedWeight,
        rest_seconds := phaseConfig.rest_seconds, rir_target := rirTarget + 2,
        benchmark_instructions := none },
    intensity_percent := some (jsRound ((75/100) * targetIntensity * 100) : Rat),
    calculated_e1rm_kg := (jsRound (workingE1RM * 10) : Rat) / 10,
    training_status := trainingStatus,
    progression_rationale := "Performance declining. Deload recommended.",
    flags := some flags,
    reasoning_breakdown := buildReasoningBreakdown lastEntry trainingStatus
      (some prescribedWeight) none phaseConfig exerciseConfig currentE1RM previousE1RM }

/-- The status-directed prescription chain of the normal path, over the
values the source computes just before it (passed as parameters so the
chain can be reasoned about independently of how they are derived). -/
def normalBranch (exercise : String) (activeHistory : List WorkoutEntry)
    (phaseConfig : PhaseConfig) (exerciseConfig : ExerciseConfig)
    (adjustedSets rirTarget workingE1RM targetIntensity : Rat)
    (trainingStatus : String) (lastEntry : Option WorkoutEntry) (le : WorkoutEntry)
    (currentE1RM previousE1RM lastWeight basePrescribedWeight : Rat)
    (flags0 : List String) : Recommendation :=
  let mkFinal : Rat → Option Rat → String → List String → Recommendation :=
    finalResult exercise phaseConfig exerciseConfig adjustedSets rirTarget workingE1RM
      targetIntensity trainingStatus lastEntry currentE1RM previousE1RM
  if trainingStatus = "progressing" then
    let hitTop := hitTopOfRepRange activeHistory phaseConfig.rep_max
    let lastRIR := match lastEntry with
      | some l => l.rir
      | none => none
    let rirAtOrBelowTarget := lastRIR = none ∨ lastRIR.getD 0 ≤ phaseConfig.rir_target
    if hitTop ∧ rirAtOrBelowTarget then
      let prescribedWeight := roundToIncrement (lastWeight + exerciseConfig.load_increment)
      let prescribedE1RM :=
        calculateE1RM prescribedWeight phaseConfig.rep_min (some phaseConfig.rir_target)
      let lastE1RM := calculateE1RM le.weight le.reps le.rir
      let changePercent := if lastE1RM > 0 then (prescribedE1RM - lastE1RM) / lastE1RM * 100 else 0
      let rationale := "Hit " ++ ratToString phaseConfig.rep_max ++ " reps at RIR " ++
        (match lastRIR with
          | some r => ratToString r
          | none => "~2") ++
        ". Increasing load by " ++ ratToString exerciseConfig.load_increment ++ "kg (" ++
        (if changePercent > 0 then "+" else "") ++ toFixed1 changePercent ++
        "% est. 1RM change)."
      mkFinal prescribedWeight (some phaseConfig.rep_min) rationale flags0
    else
      let prescribedWeight := if lastWeight > 0 then lastWeight else basePrescribedWeight
      let targetReps := match lastEntry with
        | some l => some (jsMin (l.reps + 1) phaseConfig.rep_max)
        | none => none
      let prescribedE1RM := if jsTruthy targetReps then
          calculateE1RM prescribedWeight (targetReps.getD 0) (some phaseConfig.rir_target)
        else 0
      let lastE1RM := calculateE1RM le.weight le.reps le.rir
      let changePercent := if lastE1RM > 0 then (prescribedE1RM - lastE1RM) / lastE1RM * 100 else 0
      let rationale := "Progress continues. Aim for " ++ optRatToString targetReps ++
        " reps per set (" ++ (if changePercent > 0 then "+" else "") ++
        toFixed1 changePercent ++ "% est. 1RM change)."
      mkFinal prescribedWeight targetReps rationale flags0
  else if trainingStatus = "plateau" then
    if detectPlateau activeHistory then
      let plateauCount := (activeHistory.filter fun e => decide (e.weight = lastWeight)).length
      let strategy := getPlateauStrategy exercise plateauCount
      let lastE1RM := calculateE1RM le.weight le.reps le.rir
      let withFlag := flags0 ++ ["plateau_strategy_applied"]
      if strategy = "micro_load" then
        let prescribedWeight := roundToIncrement (lastWeight + exerciseConfig.load_increment / 2)
        let targetReps := phaseConfig.rep_min
        let microLoadE1RM := calculateE1RM prescribedWeight targetReps (some phaseConfig.rir_target)
        let microLoadChange := if lastE1RM > 0 then (microLoadE1RM - lastE1RM) / lastE1RM * 100 else 0
        let rationale := "Plateau detected. Applying micro-load: +" ++
          ratToString (exerciseConfig.load_increment / 2) ++ "kg (" ++
          (if microLoadChange > 0 then "+" else "") ++ toFixed1 microLoadChange ++
          "% est. 1RM change)."
        mkFinal prescribedWeight (some targetReps) rationale withFlag
      else if strategy = "add_set" then
        mkFinal lastWeight none
          ("Plateau detected. Consider adding 1 set to increase volume (0.0% est. 1RM change).")
          withFlag
      else if strategy = "extend_rep_ceiling" then
        let targetReps := phaseConfig.rep_max + 2
        let extendedE1RM := calculateE1RM lastWeight targetReps (some phaseConfig.rir_target)
        let extendedChange := if lastE1RM > 0 then (extendedE1RM - lastE1RM) / lastE1RM * 100 else 0
        let rationale := "Plateau detected. Extending rep ceiling. Aim for " ++
          ratToString targetReps ++ " reps (" ++
          (if extendedChange > 0 then "+" else "") ++ toFixed1 extendedChange ++
          "% est. 1RM change)."
        mkFinal lastWeight (some targetReps) rationale withFlag
      else if strategy = "reset" then
        let prescribedWeight := roundToIncrement (lastWeight * (9/10))
        let targetReps := phaseConfig.rep_max
        let resetE1RM := calculateE1RM prescribedWeight targetReps (some phaseConfig.rir_target)
        let resetChange := if lastE1RM > 0 then (resetE1RM - lastE1RM) / lastE1RM * 100 else 0
        let rationale := "Plateau detected. Resetting: reduce weight 10%, rebuild (" ++
          toFixed1 resetChange ++ "% est. 1RM change)."
        mkFinal prescribedWeight (some targetReps) rationale withFlag
      else
        -- Unreachable: getPlateauStrategy only produces the four strategy
        -- names (a JS switch fall-through would keep the base weight and
        -- the empty rationale, which is what this models).
        mkFinal basePrescribedWeight none ("") withFlag
    else
      let prescribedWeight := if lastWeight > 0 then lastWeight else basePrescribedWeight
      let targetReps := match lastEntry with
        | some l => some (jsMin (l.reps + 1) phaseConfig.rep_max)
        | none => none
      let stableE1RM := if jsTruthy targetReps then
          calculateE1RM prescribedWeight (targetReps.getD 0) (some phaseConfig.rir_target)
        else 0
      let lastE1RM := calculateE1RM le.weight le.reps le.rir
      let stableChange := if lastE1RM > 0 then (stableE1RM - lastE1RM) / lastE1RM * 100 else 0
      let rationale := "Stable performance. Push for " ++
        (if jsTruthy targetReps then ratToString (targetReps.getD 0) else "more") ++
        " reps to break through (" ++ (if stableChange > 0 then "+" else "") ++
        toFixed1 stableChange ++ "% est. 1RM change)."
      mkFinal prescribedWeight targetReps rationale flags0
  else if trainingStatus = "regressing" then
    let deloadSets := jsMax 2 (jsRound (adjustedSets * (1/2)) : Rat)
    let prescribedWeight := roundToIncrement (lastWeight * (75/100))
    let flags := flags0 ++ ["recovery_week_recommended"]
    deloadResult exercise phaseConfig exerciseConfig deloadSets rirTarget workingE1RM
      targetIntensity trainingStatus lastEntry currentE1RM previousE1RM prescribedWeight flags
  else if trainingStatus = "insufficient_data" then
    if lastEntry.isSome ∧ lastWeight > 0 then
      let lastE1RM := calculateE1RM le.weight le.reps le.rir
      let lastRIR := le.rir
      let rirAtOrBelowTarget := lastRIR = none ∨ lastRIR.getD 0 ≤ phaseConfig.rir_target
      let extraFlags := flags0 ++ ["progressive_loading_from_recent_session"]
      if le.reps ≥ phaseConfig.rep_max ∧ rirAtOrBelowTarget then
        let prescribedWeight := roundToIncrement (lastWeight + exerciseConfig.load_increment)
        let targetReps := phaseConfig.rep_min
        let prescribedE1RM := calculateE1RM prescribedWeight targetReps (some phaseConfig.rir_target)
        let changePercent := if lastE1RM > 0 then (prescribedE1RM - lastE1RM) / lastE1RM * 100 else 0
        let rationale := "Building on last session (" ++ ratToString lastWeight ++ "kg × " ++
          ratToString le.reps ++ "). Increasing weight to " ++ ratToString prescribedWeight ++
          "kg, aim for " ++ ratToString targetReps ++ " reps (" ++
          (if changePercent > 0 then "+" else "") ++ toFixed1 changePercent ++
          "% est. 1RM change)."
        mkFinal prescribedWeight (some targetReps) rationale extraFlags
      else if le.reps ≥ phaseConfig.rep_min then
        let targetReps := jsMin (le.reps + 1) phaseConfig.rep_max
        let prescribedE1RM := calculateE1RM lastWeight targetReps (some phaseConfig.rir_target)
        let changePercent := if lastE1RM > 0 then (prescribedE1RM - lastE1RM) / lastE1RM * 100 else 0
        let rationale := "Building on last session (" ++ ratToString lastWeight ++ "kg × " ++
          ratToString le.reps ++ "). Aim for " ++ ratToString targetReps ++ " reps (" ++
          (if changePercent > 0 then "+" else "") ++ toFixed1 changePercent ++
          "% est. 1RM change)."
        mkFinal lastWeight (some targetReps) rationale extraFlags
      else
        let targetReps := phaseConfig.rep_min
        let prescribedE1RM := calculateE1RM lastWeight targetReps (some phaseConfig.rir_target)
        let changePercent := if lastE1RM > 0 then (prescribedE1RM - lastE1RM) / lastE1RM * 100 else 0
        let rationale := "Consolidating at " ++ ratToString lastWeight ++ "kg. Target " ++
          ratToString targetReps ++ " reps to reach training range (" ++
          (if changePercent > 0 then "+" else "") ++ toFixed1 changePercent ++
          "% est. 1RM change)."
        mkFinal lastWeight (some targetReps) rationale extraFlags
    else
      mkFinal (roundToIncrement (workingE1RM * (70/100))) none
        ("Establishing baseline. Start conservative and progress from here.")
        (flags0 ++ ["baseline_establishment_phase"])
  else
    mkFinal basePrescribedWeight none ("") flags0

/-- The normal path: estimate, edge flags, status classification, then
the prescription chain. -/
def normalResult (exercise : String) (activeHistory : List WorkoutEntry) (now : Int)
    (phaseConfig : PhaseConfig) (exerciseConfig : ExerciseConfig) (userAge : Rat) :
    Recommendation :=
  let currentE1RM := getHighestE1RMInRange activeHistory now 0 14
  let previousE1RM := getHighestE1RMInRange activeHistory now 28 42
  -- The source also computes allTimeE1RM here but never reads it again.
  let workingE1RM0 := workingE1RMOf activeHistory now exerciseConfig
  let sigLoss := previousE1RM > 0 ∧ (workingE1RM0 - previousE1RM) / previousE1RM < -(10/100)
  let workingE1RM :=
    if sigLoss then (if currentE1RM > 0 then currentE1RM else workingE1RM0) else workingE1RM0
  let lastEntry := getMostRecentEntry activeHistory
  let highRep := match lastEntry with
    | some l => decide (l.reps > 15)
    | none => false
  let flags0 : List String :=
    (if sigLoss then ["significant_strength_loss_detected"] else []) ++
    (if highRep then ["high_rep_data_detected_e1rm_estimated"] else [])
  let sessionCount := countSessions activeHistory
  let trainingStatus := determineTrainingStatus currentE1RM previousE1RM sessionCount activeHistory
  let lastWeight := jsOr (getLastSessionWeight activeHistory) 0
  let targetIntensity := (phaseConfig.intensity_lo + phaseConfig.intensity_hi) / 2
  let basePrescribedWeight := roundToIncrement (workingE1RM * targetIntensity)
  let adjustedSets := getAdjustedSets phaseConfig.base_sets userAge
  let rirTarget := phaseConfig.rir_target +
    (if jsTruthy exerciseConfig.rir_adjustment then exerciseConfig.rir_adjustment.getD 0 else 0)
  -- lastEntry is non-null on this path (activeHistory is nonempty and all
  -- its entries are active); the source dereferences it without a guard in
  -- several branches, so this placeholder is never consulted.
  let le := lastEntry.getD ⟨"", "", 0, 0, 0, none, none⟩
  normalBranch exercise activeHistory phaseConfig exerciseConfig adjustedSets rirTarget
    workingE1RM targetIntensity trainingStatus lastEntry le currentE1RM previousE1RM
    lastWeight basePrescribedWeight flags0

/-- generateRecommendation: filter and sort the history, then route the
zero-history, long-break, single-session and normal cases in the
source's order.  The JS source reads the clock with new Date(); that
implicit input is the explicit parameter now. -/
def generateRecommendation (request : Request) (now : Int) : Recommendation :=
  let phaseConfig := getPhaseConfig request.phase
  let exerciseConfig := getExerciseConfig request.exercise
  let activeHistory := activeHistoryFor request.exercise request.history
  let sessionCount := countSessions activeHistory
  let daysSinceLastSession := getDaysSinceLastSession activeHistory now
  if activeHistory.isEmpty then
    benchmarkModeResult request.exercise
  else if daysSinceLastSession.any fun d => decide (14 < d) then
    breakResult request.exercise activeHistory now (daysSinceLastSession.getD 0)
      phaseConfig exerciseConfig request.userAge
  else if sessionCount = 1 then
    postBenchmarkResult request.exercise activeHistory phaseConfig exerciseConfig
      request.userAge request.phase
  else
    normalResult request.exercise activeHistory now phaseConfig exerciseConfig request.userAge

/-- Maximal leading digit run of a character list (the greedy digit-sub-pattern
of the rep-range regular expression), with the remainder. -/
def leadingDigits : List Char → List Char × List Char
  | [] => ([], [])
  | c :: cs =>
    if c.isDigit then
      let p := leadingDigits cs
      (c :: p.1, p.2)
    else ([], c :: cs)

/-- parseInt on a digit run. -/
def digitsToNat (ds : List Char) : Nat :=
  ds.foldl (fun acc c => acc * 10 + (c.toNat - 48)) 0

/-- Try the rep-range pattern (digits, a dash, digits) anchored at the
head of the list, producing the first capture group.  Because a maximal
digit run can only be followed by a non-digit, the greedy match needs no
backtracking here. -/
def repRangeAt (l : List Char) : Option Nat :=
  let p := leadingDigits l
  if p.1.isEmpty then none
  else
    match p.2 with
    | '-' :: r2 =>
      let q := leadingDigits r2
      if q.1.isEmpty then none else some (digitsToNat p.1)
    | _ => none

/-- Leftmost match of the rep-range pattern, as String.prototype.match
finds it; returns parseInt of the first capture group. -/
def findRepRange : List Char → Option Nat
  | [] => none
  | c :: cs =>
    match repRangeAt (c :: cs) with
    | some n => some n
    | none => findRepRange cs

/-- The old-UI recommendation shape; totalReps is none when the JS
multiplication targetReps * sets hits the string "3-5" and yields NaN. -/
structure LegacyPerformance where
  weight : Option Rat
  reps : Rat
  sets : SetsVal
  totalReps : Option Rat
deriving DecidableEq

structure LegacyNext where
  weight : Option Rat
  targetReps : Rat
  sets : SetsVal
deriving DecidableEq

structure LegacyRecommendation where
  exerciseName : String
  currentPerformance : LegacyPerformance
  nextWorkout : LegacyNext
  status : String
  message : String
  plateauDetected : Bool
  deloadRecommended : Bool
  intensity_percent : Option Rat
  calculated_e1rm_kg : Rat
  training_status : String
  flags : Option (List String)
  prescription : Prescription
  reasoning_breakdown : ReasoningBreakdown
deriving DecidableEq

/-- The legacy statusMap object lookup. -/
def legacyStatusMap (s : String) : Option String :=
  if s = "progressing" then some ("progress")
  else if s = "plateau" then some ("maintain")
  else if s = "regressing" then some ("deload")
  else if s = "insufficient_data" then some ("maintain")
  else none

/-- toLegacyFormat: null in, null out; otherwise targetReps from the
truthy explicit target, else the lower bound of a rep-range string, else
the raw numeric rep count (8 when a string has no range); status through
the map (maintain for unknown statuses), force-overridden to deload when
the recovery flag is present. -/
def toLegacyFormat : Option Recommendation → Option LegacyRecommendation
  | none => none
  | some r =>
    let targetReps : Rat :=
      if jsTruthy r.prescription.target_reps then r.prescription.target_reps.getD 0
      else
        match r.prescription.reps with
        | RepsVal.str s =>
          match findRepRange s.toList with
          | some n => (n : Rat)
          | none => 8
        | RepsVal.num n => n
    let hasRecovery := match r.flags with
      | some fl => fl.contains ("recovery_week_recommended")
      | none => false
    let legacyStatus :=
      if hasRecovery then "deload"
      else (legacyStatusMap r.training_status).getD ("maintain")
    some
      { exerciseName := r.exercise,
        currentPerformance :=
          { weight := r.prescription.weight_kg, reps := targetReps,
            sets := r.prescription.sets,
            totalReps := match r.prescription.sets with
              | SetsVal.num n => some (targetReps * n)
              | SetsVal.str _ => none },
        nextWorkout :=
          { weight := r.prescription.weight_kg, targetReps := targetReps,
            sets := r.prescription.sets },
        status := legacyStatus,
        message := r.progression_rationale,
        plateauDetected := match r.flags with
          | some fl => fl.contains ("plateau_strategy_applied")
          | none => false,
        deloadRecommended := hasRecovery,
        intensity_percent := r.intensity_percent,
        calculated_e1rm_kg := r.calculated_e1rm_kg,
        training_status := r.training_status,
        flags := r.flags,
        prescription := r.prescription,
        reasoning_breakdown := r.reasoning_breakdown }

/-- The classification procedure exactly as the specification words it
(claim C2): under 2 sessions insufficient data; with a positive 28-42 day
estimate the ±2.5 percent bands; otherwise, when at least 2 recent active
entries exist, the earliest-versus-latest comparison over the last 3
chronological sessions with the +1 / -2 percent bands (written
multiplicatively, which for a positive earliest estimate is the percent
change the specification describes); otherwise insufficient data. -/
def claimedTrainingStatus (currentE1RM previousE1RM : Rat) (sessionCount : Nat)
    (recentHistory : List WorkoutEntry) : String :=
  if sessionCount < 2 then "insufficient_data"
  else if previousE1RM > 0 then
    let pct := ((currentE1RM - previousE1RM) / previousE1RM) * 100
    if pct ≥ 5/2 then "progressing"
    else if pct ≤ -(5/2) then "regressing"
    else "plateau"
  else if 2 ≤ (recentHistory.filter isActiveEntry).length then
    let sorted := sortAscByDate (recentHistory.filter isActiveEntry)
    let e1rms := (sorted.drop (sorted.length - 3)).map fun e =>
      calculateE1RM e.weight e.reps e.rir
    let firstE1RM := e1rms.headD 0
    let lastE1RM := e1rms.getLastD 0
    if firstE1RM * (101/100) < lastE1RM then "progressing"
    else if lastE1RM < firstE1RM * (98/100) then "regressing"
    else "plateau"
  else "insufficient_data"

/-- A weight that is an exact integer multiple of the 1.25 kg plate
increment. -/
def IsIncrementMultiple (w : Rat) : Prop :=
  ∃ k : Int, w = (k : Rat) * (5/4)

/-- The target-rep selection rule of the legacy adapter as amended for
claim C9: the explicit target wins only when it is truthy (present and
nonzero — JS if (target_reps)); otherwise the lower bound of a rep-range
string (8 when the string has no range); otherwise the raw rep count. -/
def amendedTargetReps (p : Prescription) : Rat :=
  if jsTruthy p.target_reps then p.target_reps.getD 0
  else
    match p.reps with
    | RepsVal.str s =>
      match findRepRange s.toList with
      | some n => (n : Rat)
      | none => 8
    | RepsVal.num n => n

/-- The legacy status rule of claim C9: deload whenever the recovery-week
flag is present, else the four-entry map with maintain as the default. -/
def claimedLegacyStatus (r : Recommendation) : String :=
  if (match r.flags with
    | some fl => fl.contains ("recovery_week_recommended")
    | none => false) then "deload"
  else (legacyStatusMap r.training_status).getD ("maintain")

/-- Concrete histories and requests used by the closed theorems below. -/
def c3Entry1 : WorkoutEntry :=
  { id := "1", name := "Pulldown", date := 90, weight := 101, reps := 8,
    rir := none, isActive := none }

def c3Entry2 : WorkoutEntry :=
  { id := "2", name := "Pulldown", date := 95, weight := 101, reps := 8,
    rir := none, isActive := none }

def c3Request : Request :=
  { exercise := "Pulldown", history := [c3Entry1, c3Entry2], userAge := 30,
    phase := "hypertrophy" }

def c4Request : Request :=
  { exercise := "Bench Press", history := [], userAge := 45, phase := "strength" }

def c5Entry : WorkoutEntry :=
  { id := "1", name := "Pulldown", date := 95, weight := 0, reps := 5,
    rir := none, isActive := none }

def c5Request : Request :=
  { exercise := "Pulldown", history := [c5Entry], userAge := 30,
    phase := "hypertrophy" }

def c5bEntry : WorkoutEntry :=
  { id := "1", name := "Pulldown", date := 95, weight := 80, reps := 10,
    rir := none, isActive := none }

def c5bRequest : Request :=
  { exercise := "Pulldown", history := [c5bEntry], userAge := 30,
    phase := "hypertrophy" }

def c6Entry : WorkoutEntry :=
  { id := "1", name := "Squat", date := 50, weight := 100, reps := 8,
    rir := none, isActive := none }

def c6Request : Request :=
  { exercise := "Squat", history := [c6Entry], userAge := 30,
    phase := "hypertrophy" }

def c7Entry1 : WorkoutEntry :=
  { id := "1", name := "Pulldown", date := 90, weight := 100, reps := 8,
    rir := none, isActive := none }

def c7Entry2 : WorkoutEntry :=
  { id := "2", name := "Pulldown", date := 95, weight := 90, reps := 8,
    rir := none, isActive := none }

def c7Request : Request :=
  { exercise := "Pulldown", history := [c7Entry1, c7Entry2], userAge := 30,
    phase := "hypertrophy" }

def c9Rec : Recommendation :=
  { exercise := "Bench Press", benchmark_mode := none, benchmark_baseline := none,
    prescription :=
      { sets := SetsVal.num 4, reps := RepsVal.str ("8-12"), target_reps := some 0,
        weight_kg := some 80, rest_seconds := "90-120", rir_target := 2,
        benchmark_instructions := none },
    intensity_percent := some 70, calculated_e1rm_kg := 100,
    training_status := "plateau", progression_rationale := "",
    flags := none,
    reasoning_breakdown := { last_session := "", trend := "", next_step := "", calculation := "" } }

def c10Entry : WorkoutEntry :=
  { id := "x", name := "Deadlift", date := 94, weight := 120, reps := 5,
    rir := some 1, isActive := none }

/-- The three disjuncts claim C3 reduces to after correction (see the
weight-invariant theorem): a null weight, an exact multiple of the
1.25 kg increment, or the held weight of the most recent active entry. -/
def WeightVerdict (ah : List WorkoutEntry) (r : Recommendation) : Prop :=
  r.prescription.weight_kg = none ∨
  (∃ k : Int, r.prescription.weight_kg = some ((k : Rat) * (5/4))) ∨
  (∃ e, getMostRecentEntry ah = some e ∧ r.prescription.weight_kg = some e.weight)

theorem jsRound_eq_round (q : Rat) : jsRound q = round q := by
  rw [round_eq]
  exact (Rat.floor_def' _).trans Rat.floor_def.symm

theorem jsMin_eq_min (a b : Rat) : jsMin a b = min a b := (min_def a b).symm

theorem jsMax_eq_max (a b : Rat) : jsMax a b = max a b := (max_def a b).symm

/-- C1: calculateE1RM returns 0 for non-positive weight or reps, is total,
and otherwise returns weight * 36 / (37 - min(reps + (margin or 2), 12))
rounded to one decimal; in particular calculateE1RM 100 5 2 is within 0.1
of 120 and calculateE1RM 50 20 0 is within 0.1 of 72 (reps capped at 12). -/
theorem calculateE1RM_spec (w r : Rat) (m : Option Rat) :
    (w ≤ 0 ∨ r ≤ 0 → calculateE1RM w r m = 0) ∧
    (0 < w → 0 < r →
      calculateE1RM w r m =
        (round (w * 36 / (37 - min (r + m.getD 2) 12) * 10) : Rat) / 10) ∧
    |calculateE1RM 100 5 (some 2) - 120| ≤ 1/10 ∧
    |calculateE1RM 50 20 (some 0) - 72| ≤ 1/10 := by
  refine ⟨?_, ?_, by with_unfolding_all decide, by with_unfolding_all decide⟩
  · intro h
    rw [calculateE1RM, if_pos h]
  · intro hw hr
    rw [calculateE1RM, if_neg (by push_neg; exact ⟨hw, hr⟩)]
    simp only [jsMin_eq_min, jsRound_eq_round]
    have harg : w * (36 / (37 - min (r + m.getD 2) 12)) * 10 =
        w * 36 / (37 - min (r + m.getD 2) 12) * 10 := by ring
    rw [harg]

theorem calculateE1RM_spec_witness :
    calculateE1RM 0 5 none = 0 ∧
    calculateE1RM 100 5 (some 2) =
      (round ((100 : Rat) * 36 / (37 - min ((5 : Rat) + (some (2 : Rat)).getD 2) 12) * 10) : Rat) / 10 :=
  ⟨(calculateE1RM_spec 0 5 none).1 (Or.inl le_rfl),
   (calculateE1RM_spec 100 5 (some 2)).2.1 (by norm_num) (by norm_num)⟩

theorem length_insertAscByDate (x : WorkoutEntry) (l : List WorkoutEntry) :
    (insertAscByDate x l).length = l.length + 1 := by
  induction l with
  | nil => rfl
  | cons y ys ih =>
    simp only [insertAscByDate]
    split
    · simp [ih]
    · simp

theorem length_sortAscByDate (l : List WorkoutEntry) :
    (sortAscByDate l).length = l.length := by
  induction l with
  | nil => rfl
  | cons x xs ih => simp [sortAscByDate, length_insertAscByDate, ih]

/-- C2: determineTrainingStatus implements exactly the two-tier procedure
the specification describes — fewer than 2 sessions is insufficient data;
a positive 28-42 day estimate classifies by percent change with the ±2.5
bands (exactly -2.5 percent regressing); otherwise at least 2 recent
active entries classify by earliest-versus-latest of the last 3
chronological sessions with the +1 / -2 percent bands; otherwise
insufficient data. -/
theorem determineTrainingStatus_matches_claim (cur prev : Rat) (sc : Nat)
    (rh : List WorkoutEntry) :
    determineTrainingStatus cur prev sc rh = claimedTrainingStatus cur prev sc rh := by
  unfold determineTrainingStatus claimedTrainingStatus
  by_cases h1 : sc < 2
  · simp [h1]
  · by_cases h2 : prev > 0
    · simp [h1, h2]
    · by_cases h3 : 2 ≤ (rh.filter isActiveEntry).length
      · have hraw : 2 ≤ rh.length := h3.trans (List.length_filter_le _ _)
        have hs : 2 ≤ (sortAscByDate (rh.filter isActiveEntry)).length := by
          rw [length_sortAscByDate]; exact h3
        simp [h1, h2, h3, hraw, hs]
      · by_cases h4 : 2 ≤ rh.length
        · have hs : ¬ 2 ≤ (sortAscByDate (rh.filter isActiveEntry)).length := by
            rw [length_sortAscByDate]; exact h3
          simp [h1, h2, h3, h4, hs]
        · simp [h1, h2, h3, h4]

theorem roundToIncrement_multiple (x : Rat) :
    ∃ k : Int, roundToIncrement x = (k : Rat) * (5/4) :=
  ⟨jsRound (x / (5/4)), rfl⟩

theorem lastWeight_mult_or_held (ah : List WorkoutEntry) :
    (∃ k : Int, jsOr (getLastSessionWeight ah) 0 = (k : Rat) * (5/4)) ∨
    (∃ e, getMostRecentEntry ah = some e ∧ jsOr (getLastSessionWeight ah) 0 = e.weight) := by
  unfold getLastSessionWeight
  cases h : getMostRecentEntry ah with
  | none => exact Or.inl ⟨0, by norm_num [jsOr]⟩
  | some e =>
    right
    refine ⟨e, rfl, ?_⟩
    by_cases hw : e.weight = 0
    · simp [jsOr, hw]
    · simp [jsOr, hw]

theorem verdict_of_weight (ah : List WorkoutEntry) (r : Recommendation) (w : Rat)
    (hr : r.prescription.weight_kg = some w)
    (hw : (∃ k : Int, w = (k : Rat) * (5/4)) ∨
      (∃ e, getMostRecentEntry ah = some e ∧ w = e.weight)) :
    WeightVerdict ah r := by
  rcases hw with ⟨k, hk⟩ | ⟨e, he, hk⟩
  · exact Or.inr (Or.inl ⟨k, by rw [hr, hk]⟩)
  · exact Or.inr (Or.inr ⟨e, he, by rw [hr, hk]⟩)

theorem ite_weight_mult_or_held (ah : List WorkoutEntry) (c : Prop) [Decidable c] (x : Rat) :
    (∃ k : Int,
      (if c then jsOr (getLastSessionWeight ah) 0 else roundToIncrement x) = (k : Rat) * (5/4)) ∨
    (∃ e, getMostRecentEntry ah = some e ∧
      (if c then jsOr (getLastSessionWeight ah) 0 else roundToIncrement x) = e.weight) := by
  split
  · exact lastWeight_mult_or_held ah
  · exact Or.inl (roundToIncrement_multiple x)

theorem weightVerdict_benchmarkModeResult (ah : List WorkoutEntry) (ex : String) :
    WeightVerdict ah (benchmarkModeResult ex) := Or.inl rfl

theorem weightVerdict_breakResult (ex : String) (ah : List WorkoutEntry) (now d : Int)
    (pc : PhaseConfig) (ec : ExerciseConfig) (age : Rat) :
    WeightVerdict ah (breakResult ex ah now d pc ec age) :=
  Or.inr (Or.inl ⟨_, rfl⟩)

theorem weightVerdict_postBenchmarkResult (ex : String) (ah : List WorkoutEntry)
    (pc : PhaseConfig) (ec : ExerciseConfig) (age : Rat) (phase : String) :
    WeightVerdict ah (postBenchmarkResult ex ah pc ec age phase) := by
  unfold postBenchmarkResult
  lift_lets
  extract_lets
  split
  · exact Or.inl rfl
  · exact Or.inr (Or.inl ⟨_, rfl⟩)

set_option maxHeartbeats 1600000 in
theorem weightVerdict_normalBranch (ex : String) (ah : List WorkoutEntry)
    (pc : PhaseConfig) (ec : ExerciseConfig) (adjSets rirT wE tI : Rat)
    (ts : String) (lastEntry : Option WorkoutEntry) (le : WorkoutEntry)
    (cur prev : Rat) (fl : List String) :
    WeightVerdict ah (normalBranch ex ah pc ec adjSets rirT wE tI ts lastEntry le cur prev
      (jsOr (getLastSessionWeight ah) 0) (roundToIncrement (wE * tI)) fl) := by
  unfold normalBranch
  lift_lets
  extract_lets
  repeat' split
  all_goals refine verdict_of_weight ah _ _ rfl ?_
  all_goals
    first
    | exact Or.inl (roundToIncrement_multiple _)
    | exact lastWeight_mult_or_held ah
    | exact ite_weight_mult_or_held ah _ _

theorem weightVerdict_normalResult (ex : String) (ah : List WorkoutEntry) (now : Int)
    (pc : PhaseConfig) (ec : ExerciseConfig) (age : Rat) :
    WeightVerdict ah (normalResult ex ah now pc ec age) :=
  weightVerdict_normalBranch ex ah pc ec _ _ _ _ _ _ _ _ _ _

/-- C3 counterexample: a plateau that holds the last logged weight of
101 kg returns a prescribed weight that is not a multiple of 1.25 kg. -/
theorem c3_weight_not_multiple :
    (generateRecommendation c3Request 100).prescription.weight_kg = some 101 ∧
    ¬ IsIncrementMultiple 101 := by
  constructor
  · with_unfolding_all decide
  · rintro ⟨k, hk⟩
    have h4 : (404 : Rat) = (k : Rat) * 5 := by linarith
    have h5 : (404 : Int) = k * 5 := by exact_mod_cast h4
    omega

/-- C3 amended: every prescribed weight is null, an exact multiple of the
1.25 kg increment, or exactly the logged weight of the most recent active
entry for the exercise (the branches that hold the last working weight
return it unrounded). -/
theorem generateRecommendation_weight_invariant (req : Request) (now : Int) :
    (generateRecommendation req now).prescription.weight_kg = none ∨
    (∃ k : Int, (generateRecommendation req now).prescription.weight_kg =
      some ((k : Rat) * (5/4))) ∨
    (∃ e, getMostRecentEntry (activeHistoryFor req.exercise req.history) = some e ∧
      (generateRecommendation req now).prescription.weight_kg = some e.weight) := by
  suffices h : WeightVerdict (activeHistoryFor req.exercise req.history)
      (generateRecommendation req now) by exact h
  unfold generateRecommendation
  lift_lets
  extract_lets pc ec ah sc ds
  repeat' split
  · exact weightVerdict_benchmarkModeResult _ _
  · exact weightVerdict_breakResult _ _ _ _ _ _ _
  · exact weightVerdict_postBenchmarkResult _ _ _ _ _ _
  · exact weightVerdict_normalResult _ _ _ _ _ _

theorem generate_eq_benchmark (req : Request) (now : Int)
    (h : req.history.filter (fun e => decide (e.name = req.exercise) && isActiveEntry e) = []) :
    generateRecommendation req now = benchmarkModeResult req.exercise := by
  have hah : activeHistoryFor req.exercise req.history = [] := by
    unfold activeHistoryFor
    rw [h]
    rfl
  simp only [generateRecommendation]
  rw [hah]
  rfl

theorem generate_eq_break (req : Request) (now d : Int)
    (h1 : getDaysSinceLastSession (activeHistoryFor req.exercise req.history) now = some d)
    (h2 : 14 < d) :
    generateRecommendation req now =
      breakResult req.exercise (activeHistoryFor req.exercise req.history) now d
        (getPhaseConfig req.phase) (getExerciseConfig req.exercise) req.userAge := by
  have hne : (activeHistoryFor req.exercise req.history).isEmpty = false := by
    cases hah : activeHistoryFor req.exercise req.history with
    | nil => rw [hah] at h1; exact Option.noConfusion h1
    | cons a l => rfl
  simp only [generateRecommendation]
  rw [hne, h1]
  simp [Option.any, h2]

theorem generate_eq_post (req : Request) (now : Int)
    (h1 : activeHistoryFor req.exercise req.history ≠ [])
    (h2 : ∀ d, getDaysSinceLastSession (activeHistoryFor req.exercise req.history) now = some d →
      d ≤ 14)
    (h3 : countSessions (activeHistoryFor req.exercise req.history) = 1) :
    generateRecommendation req now =
      postBenchmarkResult req.exercise (activeHistoryFor req.exercise req.history)
        (getPhaseConfig req.phase) (getExerciseConfig req.exercise) req.userAge req.phase := by
  have hne : (activeHistoryFor req.exercise req.history).isEmpty = false := by
    cases hah : activeHistoryFor req.exercise req.history with
    | nil => exact absurd hah h1
    | cons a l => rfl
  have hany : (getDaysSinceLastSession (activeHistoryFor req.exercise req.history) now).any
      (fun d => decide (14 < d)) = false := by
    cases hds : getDaysSinceLastSession (activeHistoryFor req.exercise req.history) now with
    | none => rfl
    | some d =>
      have hd := h2 d hds
      simp [Option.any]
      omega
  simp only [generateRecommendation]
  rw [hne, hany, h3]
  simp

theorem generate_eq_normal (req : Request) (now : Int)
    (h1 : activeHistoryFor req.exercise req.history ≠ [])
    (h2 : ∀ d, getDaysSinceLastSession (activeHistoryFor req.exercise req.history) now = some d →
      d ≤ 14)
    (h3 : countSessions (activeHistoryFor req.exercise req.history) ≠ 1) :
    generateRecommendation req now =
      normalResult req.exercise (activeHistoryFor req.exercise req.history) now
        (getPhaseConfig req.phase) (getExerciseConfig req.exercise) req.userAge := by
  have hne : (activeHistoryFor req.exercise req.history).isEmpty = false := by
    cases hah : activeHistoryFor req.exercise req.history with
    | nil => exact absurd hah h1
    | cons a l => rfl
  have hany : (getDaysSinceLastSession (activeHistoryFor req.exercise req.history) now).any
      (fun d => decide (14 < d)) = false := by
    cases hds : getDaysSinceLastSession (activeHistoryFor req.exercise req.history) now with
    | none => rfl
    | some d =>
      have hd := h2 d hds
      simp [Option.any]
      omega
  simp only [generateRecommendation]
  rw [hne, hany]
  simp [h3]

/-- C4: with no active entry for the requested exercise the engine
returns the benchmark template: sets "3-5", reps "5-12", no weight,
effort-margin target 3, an embedded instruction list, status
benchmark_mode, the benchmark_mode flag, a zero estimate and a null
intensity. -/
theorem generateRecommendation_benchmark_mode (req : Request) (now : Int)
    (h : ∀ e ∈ req.history, ¬(e.name = req.exercise ∧ e.isActive ≠ some false)) :
    (generateRecommendation req now).prescription.sets = SetsVal.str ("3-5") ∧
    (generateRecommendation req now).prescription.reps = RepsVal.str ("5-12") ∧
    (generateRecommendation req now).prescription.weight_kg = none ∧
    (generateRecommendation req now).prescription.rir_target = 3 ∧
    (generateRecommendation req now).prescription.benchmark_instructions ≠ none ∧
    (generateRecommendation req now).training_status = "benchmark_mode" ∧
    (generateRecommendation req now).flags = some ["benchmark_mode"] ∧
    (generateRecommendation req now).calculated_e1rm_kg = 0 ∧
    (generateRecommendation req now).intensity_percent = none := by
  have hf : req.history.filter
      (fun e => decide (e.name = req.exercise) && isActiveEntry e) = [] := by
    rw [List.filter_eq_nil_iff]
    intro a ha
    have ha2 := h a ha
    simp only [Bool.and_eq_true, decide_eq_true_eq, isActiveEntry]
    tauto
  rw [generate_eq_benchmark req now hf]
  refine ⟨rfl, rfl, rfl, rfl, ?_, rfl, rfl, rfl, rfl⟩
  exact fun hc => Option.noConfusion hc

theorem generateRecommendation_benchmark_mode_witness :
    (generateRecommendation c4Request 100).prescription.sets = SetsVal.str ("3-5") ∧
    (generateRecommendation c4Request 100).prescription.weight_kg = none ∧
    (generateRecommendation c4Request 100).flags = some ["benchmark_mode"] := by
  have h := generateRecommendation_benchmark_mode c4Request 100
    (fun e he => absurd he (List.not_mem_nil e))
  exact ⟨h.1, h.2.2.1, h.2.2.2.2.2.2.1⟩

/-- C6: with a non-empty active history whose most recent entry is more
than 14 days old (d days), the engine takes the long-break branch (before
the single-session branch, since no session-count hypothesis is needed):
flag returning_from_break, status insufficient_data, effort-margin target
one above the phase target, weight prescribed at phase mid-intensity off
the working estimate reduced by 10 percent (d > 14) or 15 percent
(d > 28), and a rationale that quotes the day count. -/
theorem generateRecommendation_break (req : Request) (now d : Int)
    (h1 : getDaysSinceLastSession (activeHistoryFor req.exercise req.history) now = some d)
    (h2 : 14 < d) :
    (generateRecommendation req now).flags = some ["returning_from_break"] ∧
    (generateRecommendation req now).training_status = "insufficient_data" ∧
    (generateRecommendation req now).prescription.rir_target =
      (getPhaseConfig req.phase).rir_target + 1 ∧
    (generateRecommendation req now).prescription.weight_kg = some (roundToIncrement
      (workingE1RMOf (activeHistoryFor req.exercise req.history) now
          (getExerciseConfig req.exercise) *
        (1 - (if 28 < d then (15 : Rat)/100 else 10/100)) *
        (((getPhaseConfig req.phase).intensity_lo +
          (getPhaseConfig req.phase).intensity_hi) / 2))) ∧
    (generateRecommendation req now).progression_rationale =
      toString d ++ " days since last session. Reducing load by " ++
        toString (jsRound ((if 28 < d then (15 : Rat)/100 else 10/100) * 100)) ++
        "% for safe return." := by
  rw [generate_eq_break req now d h1 h2]
  exact ⟨rfl, rfl, rfl, rfl, rfl⟩

theorem generateRecommendation_break_witness :
    (generateRecommendation c6Request 100).flags = some ["returning_from_break"] ∧
    (generateRecommendation c6Request 100).training_status = "insufficient_data" := by
  have h := generateRecommendation_break c6Request 100 50
    (by with_unfolding_all decide) (by decide)
  exact ⟨h.1, h.2.1⟩


theorem mem_insertDescByDate {x a : WorkoutEntry} {l : List WorkoutEntry} :
    a ∈ insertDescByDate x l ↔ a = x ∨ a ∈ l := by
  induction l with
  | nil => simp [insertDescByDate]
  | cons y ys ih =>
    simp only [insertDescByDate]
    split
    · simp [ih]
      tauto
    · simp

theorem mem_sortDescByDate {a : WorkoutEntry} {l : List WorkoutEntry} :
    a ∈ sortDescByDate l ↔ a ∈ l := by
  induction l with
  | nil => simp [sortDescByDate]
  | cons x xs ih =>
    simp [sortDescByDate, mem_insertDescByDate, ih]

theorem mem_foldl_insertUnique (l : List Int) (acc : List Int) (a : Int) :
    a ∈ l.foldl insertUnique acc ↔ a ∈ acc ∨ a ∈ l := by
  induction l generalizing acc with
  | nil => simp
  | cons x xs ih =>
    simp only [List.foldl_cons, ih]
    unfold insertUnique
    split
    · rename_i hc
      have hx : x ∈ acc := by simpa using hc
      constructor
      · rintro (h | h)
        · exact Or.inl h
        · exact Or.inr (List.mem_cons_of_mem x h)
      · rintro (h | h)
        · exact Or.inl h
        · rcases List.mem_cons.mp h with h | h
          · exact Or.inl (h ▸ hx)
          · exact Or.inr h
    · simp [List.mem_append, List.mem_cons]
      tauto

theorem mem_uniqueDates {l : List Int} {a : Int} :
    a ∈ uniqueDates l ↔ a ∈ l := by
  unfold uniqueDates
  rw [mem_foldl_insertUnique]
  simp

theorem activeHistoryFor_all_active (ex : String) (h : List WorkoutEntry) :
    ∀ e ∈ activeHistoryFor ex h, isActiveEntry e = true := by
  intro e he
  rw [activeHistoryFor] at he
  rw [mem_sortDescByDate] at he
  have := (List.mem_filter.mp he).2
  exact (Bool.and_eq_true _ _).mp this |>.2

theorem foldl_maxBy_e1rm (first : BenchSet) (rest : List BenchSet) :
    (rest.foldl (fun best current => if best.e1rm < current.e1rm then current else best) first).e1rm
    = (rest.map BenchSet.e1rm).foldl jsMax first.e1rm := by
  induction rest generalizing first with
  | nil => rfl
  | cons c cs ih =>
    simp only [List.foldl_cons, List.map_cons]
    rw [ih]
    congr 1
    unfold jsMax
    rcases lt_trichotomy first.e1rm c.e1rm with h | h | h
    · rw [if_pos h, if_pos h.le]
    · rw [if_neg (by rw [h]; exact lt_irrefl _), if_pos h.le, h]
    · rw [if_neg (not_lt.mpr h.le), if_neg (not_le.mpr h)]

theorem analyze_highest (x : WorkoutEntry) (xs : List WorkoutEntry) (ex : String) :
    (analyzeBenchmarkSession (x :: xs) ex).highestE1RM =
    maxList ((x :: xs).map fun e => calculateE1RM e.weight e.reps e.rir) *
      jsOr (getExerciseConfig ex).e1rm_modifier 1 := by
  simp only [analyzeBenchmarkSession]
  congr 1
  rw [foldl_maxBy_e1rm, List.map_map]
  simp only [maxList, List.map_cons]
  rfl

/-- C5 amended: with exactly one distinct active session date at most 14
days old, the engine analyzes every set of that session, takes the
highest modifier-adjusted estimate as the baseline, prescribes at phase
mid-intensity, and returns status progressive with flag
post_benchmark_first_prescription — unconditionally: the
benchmark_analysis_failed fallback would require an empty session list,
which cannot happen here, so sessions with no analyzable set (all
non-positive weight or reps) get a baseline of 0 and the same shape
rather than the degraded output the claim describes. -/
theorem generateRecommendation_single_session (req : Request) (now : Int)
    (h2 : ∀ d, getDaysSinceLastSession (activeHistoryFor req.exercise req.history) now = some d →
      d ≤ 14)
    (h3 : countSessions (activeHistoryFor req.exercise req.history) = 1) :
    (generateRecommendation req now).training_status = "progressive" ∧
    (generateRecommendation req now).flags = some ["post_benchmark_first_prescription"] ∧
    (generateRecommendation req now).benchmark_mode = some false ∧
    (generateRecommendation req now).calculated_e1rm_kg =
      maxList ((activeHistoryFor req.exercise req.history).map fun e =>
        calculateE1RM e.weight e.reps e.rir) *
        jsOr (getExerciseConfig req.exercise).e1rm_modifier 1 ∧
    (generateRecommendation req now).prescription.weight_kg = some (roundToIncrement
      (maxList ((activeHistoryFor req.exercise req.history).map fun e =>
          calculateE1RM e.weight e.reps e.rir) *
        jsOr (getExerciseConfig req.exercise).e1rm_modifier 1 *
        (((getPhaseConfig req.phase).intensity_lo + (getPhaseConfig req.phase).intensity_hi) / 2))) := by
  have h1 : activeHistoryFor req.exercise req.history ≠ [] := by
    intro hnil
    rw [hnil] at h3
    exact absurd h3 (by with_unfolding_all decide)
  obtain ⟨x, xs, hx⟩ : ∃ x xs, activeHistoryFor req.exercise req.history = x :: xs := by
    cases hc : activeHistoryFor req.exercise req.history with
    | nil => exact absurd hc h1
    | cons a l => exact ⟨a, l, rfl⟩
  have hall : ∀ e ∈ activeHistoryFor req.exercise req.history, isActiveEntry e = true :=
    activeHistoryFor_all_active _ _
  have hfilter_active : (activeHistoryFor req.exercise req.history).filter isActiveEntry =
      activeHistoryFor req.exercise req.history := List.filter_eq_self.mpr hall
  have hcount : (uniqueDates ((activeHistoryFor req.exercise req.history).map
      WorkoutEntry.date)).length = 1 := by
    unfold countSessions at h3
    rw [hfilter_active] at h3
    exact h3
  obtain ⟨d0, hud⟩ := List.length_eq_one.mp hcount
  have hdates : ∀ e ∈ activeHistoryFor req.exercise req.history, e.date = d0 := by
    intro e he
    have hm : e.date ∈ uniqueDates ((activeHistoryFor req.exercise req.history).map
        WorkoutEntry.date) := mem_uniqueDates.mpr (List.mem_map_of_mem _ he)
    rw [hud] at hm
    simpa using hm
  have hfilter_d0 : (activeHistoryFor req.exercise req.history).filter
      (fun e => decide (e.date = d0)) = activeHistoryFor req.exercise req.history :=
    List.filter_eq_self.mpr (fun a ha => decide_eq_true (hdates a ha))
  rw [generate_eq_post req now h1 h2 h3]
  unfold postBenchmarkResult
  rw [hud]
  simp only [sortIntAsc, insertIntAsc, List.headD]
  rw [hfilter_d0, hx]
  have hcompleted : (analyzeBenchmarkSession (x :: xs) req.exercise).benchmarkCompleted = true := by
    simp [analyzeBenchmarkSession]
  rw [hcompleted, if_neg (show ¬(true = false) by decide)]
  refine ⟨rfl, rfl, rfl, analyze_highest x xs req.exercise, ?_⟩
  rw [analyze_highest x xs req.exercise]

/-- C5 counterexample: a single recent active session whose only set has
weight 0 — no analyzable set — still returns the post-benchmark
prescription with status progressive and flag
post_benchmark_first_prescription, not the degraded
benchmark_analysis_failed output the claim requires for it. -/
theorem c5_nonpositive_session_not_failed :
    (∀ e ∈ c5Request.history, ¬ 0 < e.weight) ∧
    (generateRecommendation c5Request 100).training_status = "progressive" ∧
    (generateRecommendation c5Request 100).flags =
      some ["post_benchmark_first_prescription"] := by
  refine ⟨by with_unfolding_all decide, by with_unfolding_all decide,
    by with_unfolding_all decide⟩

theorem generateRecommendation_single_session_witness :
    (generateRecommendation c5bRequest 100).training_status = "progressive" ∧
    (generateRecommendation c5bRequest 100).flags =
      some ["post_benchmark_first_prescription"] := by
  have h := generateRecommendation_single_session c5bRequest 100
    (by
      intro d hd
      have he : getDaysSinceLastSession
          (activeHistoryFor c5bRequest.exercise c5bRequest.history) 100 = some 5 := by
        with_unfolding_all decide
      rw [he] at hd
      cases hd
      decide)
    (by with_unfolding_all decide)
  exact ⟨h.1, h.2.1⟩

theorem normalBranch_regressing (ex : String) (ah : List WorkoutEntry)
    (pc : PhaseConfig) (ec : ExerciseConfig) (adjSets rirT wE tI : Rat)
    (lastEntry : Option WorkoutEntry) (le : WorkoutEntry)
    (cur prev lw base : Rat) (fl0 : List String) :
    normalBranch ex ah pc ec adjSets rirT wE tI ("regressing") lastEntry le cur prev lw base fl0 =
    deloadResult ex pc ec (jsMax 2 (jsRound (adjSets * (1/2)) : Rat)) rirT wE tI ("regressing")
      lastEntry cur prev (roundToIncrement (lw * (75/100)))
      (fl0 ++ ["recovery_week_recommended"]) := by
  rfl

/-- C7: a normal-path request classified regressing returns immediately
with the distinct recovery shape: sets are the age-adjusted count halved
(rounded, floored at 2), weight is 75 percent of the last working weight
rounded to increment, the effort-margin target is two above the normal
target, the recovery_week_recommended flag is present, and the status
stays regressing. -/
theorem generateRecommendation_regressing (req : Request) (now d : Int)
    (h1 : getDaysSinceLastSession (activeHistoryFor req.exercise req.history) now = some d)
    (h2 : d ≤ 14)
    (h3 : countSessions (activeHistoryFor req.exercise req.history) ≠ 1)
    (h4 : determineTrainingStatus
        (getHighestE1RMInRange (activeHistoryFor req.exercise req.history) now 0 14)
        (getHighestE1RMInRange (activeHistoryFor req.exercise req.history) now 28 42)
        (countSessions (activeHistoryFor req.exercise req.history))
        (activeHistoryFor req.exercise req.history) = "regressing") :
    (generateRecommendation req now).training_status = "regressing" ∧
    (∃ fl, (generateRecommendation req now).flags = some fl ∧
      "recovery_week_recommended" ∈ fl) ∧
    (generateRecommendation req now).prescription.sets = SetsVal.num (jsMax 2
      ((jsRound (getAdjustedSets (getPhaseConfig req.phase).base_sets req.userAge * (1/2))) :
        Rat)) ∧
    (generateRecommendation req now).prescription.weight_kg = some (roundToIncrement
      (jsOr (getLastSessionWeight (activeHistoryFor req.exercise req.history)) 0 * (75/100))) ∧
    (generateRecommendation req now).prescription.rir_target =
      ((getPhaseConfig req.phase).rir_target +
        (if jsTruthy (getExerciseConfig req.exercise).rir_adjustment then
          (getExerciseConfig req.exercise).rir_adjustment.getD 0 else 0)) + 2 := by
  have h1ne : activeHistoryFor req.exercise req.history ≠ [] := by
    intro hah
    rw [hah] at h1
    exact Option.noConfusion h1
  have h2x : ∀ dx, getDaysSinceLastSession (activeHistoryFor req.exercise req.history) now =
      some dx → dx ≤ 14 := by
    intro dx hdx
    rw [h1] at hdx
    cases hdx
    exact h2
  rw [generate_eq_normal req now h1ne h2x h3]
  simp only [normalResult]
  rw [h4, normalBranch_regressing]
  exact ⟨rfl, ⟨_, rfl, by simp⟩, rfl, rfl, rfl⟩

theorem generateRecommendation_regressing_witness :
    (generateRecommendation c7Request 100).training_status = "regressing" ∧
    (∃ fl, (generateRecommendation c7Request 100).flags = some fl ∧
      "recovery_week_recommended" ∈ fl) := by
  have h := generateRecommendation_regressing c7Request 100 5
    (by with_unfolding_all decide) (by decide)
    (by with_unfolding_all decide) (by with_unfolding_all decide)
  exact ⟨h.1, h.2.1⟩

/-- C8: the engine is deterministic and stateless — the result is a pure
function of the explicit request snapshot and the observed clock (the JS
source's only implicit input, new Date(), embedded as the explicit now
parameter); the module holds no mutable state between calls, so two
invocations on identical inputs produce identical output. -/
theorem generateRecommendation_deterministic (r1 r2 : Request) (n1 n2 : Int)
    (hr : r1 = r2) (hn : n1 = n2) :
    generateRecommendation r1 n1 = generateRecommendation r2 n2 := by
  rw [hr, hn]

theorem generateRecommendation_deterministic_witness :
    generateRecommendation c3Request 100 = generateRecommendation c3Request 100 :=
  generateRecommendation_deterministic c3Request c3Request 100 100 rfl rfl

/-- C9 counterexample: a recommendation carrying the explicit target
target_reps = 0 does not yield targetReps 0 — JS truthiness skips it and
the adapter falls back to the rep-range lower bound 8, so priority (1)
of the claim fails as stated. -/
theorem c9_explicit_zero_target_ignored :
    c9Rec.prescription.target_reps = some 0 ∧
    (toLegacyFormat (some c9Rec)).map (fun l => l.nextWorkout.targetReps) = some 8 ∧
    (0 : Rat) ≠ 8 := by
  refine ⟨rfl, by with_unfolding_all decide, by norm_num⟩

/-- C9 amended: the legacy adapter is total and pure, maps null to null
and only null to null, chooses targetReps by priority from (1) the
explicit target_reps when it is truthy (present and nonzero), (2) the
lower bound parsed from a rep-range string (8 when no range is found),
(3) the raw numeric rep count, and maps training_status through
{progressing → progress, plateau → maintain, regressing → deload,
insufficient_data → maintain} (maintain for anything else),
force-overridden to deload when flags contains
recovery_week_recommended. -/
theorem toLegacyFormat_spec :
    toLegacyFormat none = none ∧
    ∀ r : Recommendation, ∃ l : LegacyRecommendation,
      toLegacyFormat (some r) = some l ∧
      l.nextWorkout.targetReps = amendedTargetReps r.prescription ∧
      l.currentPerformance.reps = amendedTargetReps r.prescription ∧
      l.status = claimedLegacyStatus r ∧
      l.exerciseName = r.exercise ∧
      l.message = r.progression_rationale :=
  ⟨rfl, fun r => ⟨_, rfl, rfl, rfl, rfl, rfl, rfl⟩⟩

/-- C10: workout entries whose name differs from the requested exercise,
or whose isActive field is false, have no effect on the recommendation:
inserting such an entry anywhere in the history leaves the output
unchanged. -/
theorem generateRecommendation_ignores_foreign (ex : String)
    (pre post : List WorkoutEntry) (e : WorkoutEntry) (age : Rat) (phase : String)
    (now : Int) (he : e.name ≠ ex ∨ e.isActive = some false) :
    generateRecommendation ⟨ex, pre ++ e :: post, age, phase⟩ now =
    generateRecommendation ⟨ex, pre ++ post, age, phase⟩ now := by
  have hpred : (decide (e.name = ex) && isActiveEntry e) = false := by
    rcases he with h | h
    · simp [h]
    · simp [isActiveEntry, h]
  have hAH : activeHistoryFor ex (pre ++ e :: post) = activeHistoryFor ex (pre ++ post) := by
    unfold activeHistoryFor
    rw [List.filter_append, List.filter_append, List.filter_cons, hpred]
    simp
  simp only [generateRecommendation]
  rw [hAH]

theorem generateRecommendation_ignores_foreign_witness :
    generateRecommendation
      ⟨"Pulldown", [c3Entry1, c3Entry2] ++ c10Entry :: [], 30, "hypertrophy"⟩ 100 =
    generateRecommendation ⟨"Pulldown", [c3Entry1, c3Entry2] ++ [], 30, "hypertrophy"⟩ 100 :=
  generateRecommendation_ignores_foreign ("Pulldown") [c3Entry1, c3Entry2] [] c10Entry
    30 ("hypertrophy") 100 (Or.inl (by with_unfolding_all decide))

end POH
